import Mathlib

/-!
Shallow embedding of the three Clarity contracts of the
Decentralized Health Record Interoperability Protocol:

* `provider-verification.clar` (Credential Registry),
* `audit-trail.clar` (Audit Log),
* `access-control.clar` (Consent & Grant Ledger).

Principals and ASCII strings are modelled as `String`, Clarity `uint` as
`Nat` (the counters and heights involved stay far below `2 ^ 128`, where
Clarity arithmetic would abort), Clarity maps as association lists with
last-write-wins update, and every `define-public` function as a function
`... → Except Nat σ` on the contract state: `Except.error code` is
`(err u<code>)` and, by Clarity's transaction semantics, commits no state
change; `Except.ok` carries the post-state written atomically.
`stacks-block-height` is passed to each call as an explicit `height`
argument.  A `unwrap-panic` on `none` (a runtime abort in Clarity, which
likewise rolls the whole transaction back) is modelled as a distinguished
error code `RUNTIME_ABORT` that no contract returns as a response.
-/

deriving instance DecidableEq for Except

namespace HealthRecords

/-- Association-list lookup: first entry with the given key wins. -/
def alookup {α β : Type} [DecidableEq α] (k : α) : List (α × β) → Option β
  | [] => none
  | (k', v) :: rest => if k' = k then some v else alookup k rest

/-- Association-list update, the semantics of Clarity `map-set`:
replace the entry for `k` if present, else append. -/
def aset {α β : Type} [DecidableEq α] (k : α) (v : β) : List (α × β) → List (α × β)
  | [] => [(k, v)]
  | (k', v') :: rest => if k' = k then (k, v) :: rest else (k', v') :: aset k v rest

/-- Runs a transaction against a state: an `ok` result commits the new
state, an `err` (or runtime abort) is rolled back and the state is kept.
This is Clarity's atomic commit-or-discard semantics. -/
def runTx {σ : Type} (f : σ → Except Nat σ) (s : σ) : σ :=
  match f s with
  | .ok s' => s'
  | .error _ => s

/-- Error code standing for a Clarity runtime abort (`unwrap-panic` on
`none`); distinct from every response code the contracts return. -/
def RUNTIME_ABORT : Nat := 999999

/-! ### Credential Registry — `provider-verification.clar` -/

def ERR_NOT_AUTHORIZED : Nat := 300

def ERR_PROVIDER_NOT_FOUND : Nat := 301

def ERR_INVALID_CREDENTIALS : Nat := 302

def ERR_CREDENTIALS_EXPIRED : Nat := 303

def ERR_PROVIDER_SUSPENDED : Nat := 304

def ERR_INVALID_CREDENTIAL_TYPE : Nat := 305

def ERR_PROVIDER_ALREADY_EXISTS : Nat := 306

def ERR_INVALID_EXPIRY_DATE : Nat := 307

def MIN_CREDENTIAL_VALIDITY_BLOCKS : Nat := 144

/-- The principal of the access-control contract (`.access-control`),
the only caller admitted by the two gated entry points. -/
def accessControlContract : String := ".access-control"

/-- Row of the `provider-credentials` map. -/
structure ProviderCredential where
  licenseNumber : String
  credentialTypes : List String
  issuedAt : Nat
  expiresAt : Nat
  issuingAuthority : String
  verificationStatus : String
  lastVerified : Nat
  suspensionReason : Option String
deriving DecidableEq, Repr

/-- Row of the `credential-verifications` history map. -/
structure CredentialVerification where
  verifiedBy : String
  verificationDate : Nat
  credentialHash : String
  verificationResult : String
  notes : Option String
deriving DecidableEq, Repr

/-- Row of the `valid-credential-types` map. -/
structure CredentialTypeInfo where
  description : String
  requiredForAccess : Bool
  createdAt : Nat
deriving DecidableEq, Repr

/-- Row of the `provider-status` map. -/
structure ProviderStatus where
  registrationDate : Nat
  lastActivity : Nat
  accessCount : Nat
  status : String
  updatedBy : String
deriving DecidableEq, Repr

/-- State of the `provider-verification` contract: its four data maps and
the deploy-time constant `CONTRACT-OWNER`. -/
structure VerificationState where
  owner : String
  providerCredentials : List (String × ProviderCredential)
  validCredentialTypes : List (String × CredentialTypeInfo)
  credentialVerifications : List ((String × String) × CredentialVerification)
  providerStatus : List (String × ProviderStatus)
deriving DecidableEq, Repr

/-- Clarity `is-valid-credential-type`: membership in the `valid-credential-types`
map. -/
def isValidCredentialType (vs : VerificationState) (credentialType : String) : Bool :=
  (alookup credentialType vs.validCredentialTypes).isSome

/-- Clarity `validate-credential-types`: every tag valid, written as in the source
via a length comparison with `filter`. -/
def validateCredentialTypes (vs : VerificationState) (types : List String) : Bool :=
  types.length == (types.filter (isValidCredentialType vs)).length

/-- Clarity `generate-verification-id`: the source returns the constant string. -/
def generateVerificationId (_provider : String) : String :=
  "verification-id"

/-- Clarity `register-provider`. -/
def registerProvider (txSender provider licenseNumber : String)
    (credentialTypes : List String) (expiresAt : Nat)
    (issuingAuthority credentialHash : String) (height : Nat)
    (vs : VerificationState) : Except Nat VerificationState :=
  if txSender ≠ vs.owner then .error ERR_NOT_AUTHORIZED
  else if (alookup provider vs.providerCredentials).isSome then
    .error ERR_PROVIDER_ALREADY_EXISTS
  else if ¬ expiresAt > height then .error ERR_INVALID_EXPIRY_DATE
  else if ¬ expiresAt > height + MIN_CREDENTIAL_VALIDITY_BLOCKS then
    .error ERR_INVALID_EXPIRY_DATE
  else if ¬ validateCredentialTypes vs credentialTypes then
    .error ERR_INVALID_CREDENTIAL_TYPE
  else if ¬ credentialHash.length > 0 then .error ERR_INVALID_CREDENTIALS
  else
    .ok { vs with
      providerCredentials := aset provider
        { licenseNumber := licenseNumber
          credentialTypes := credentialTypes
          issuedAt := height
          expiresAt := expiresAt
          issuingAuthority := issuingAuthority
          verificationStatus := "verified"
          lastVerified := height
          suspensionReason := none } vs.providerCredentials
      credentialVerifications := aset (provider, generateVerificationId provider)
        { verifiedBy := txSender
          verificationDate := height
          credentialHash := credentialHash
          verificationResult := "verified"
          notes := none } vs.credentialVerifications
      providerStatus := aset provider
        { registrationDate := height
          lastActivity := height
          accessCount := 0
          status := "active"
          updatedBy := txSender } vs.providerStatus }

/-- Clarity `verify-provider` (read-only). -/
def verifyProvider (provider : String) (height : Nat)
    (vs : VerificationState) : Except Nat Bool :=
  match alookup provider vs.providerCredentials with
  | none => .error ERR_PROVIDER_NOT_FOUND
  | some creds =>
    match alookup provider vs.providerStatus with
    | none => .error ERR_PROVIDER_NOT_FOUND
    | some stat =>
      if creds.verificationStatus = "verified" ∧ creds.expiresAt > height ∧
          stat.status = "active" then
        .ok true
      else if height > creds.expiresAt then .error ERR_CREDENTIALS_EXPIRED
      else if ¬ stat.status = "active" then .error ERR_PROVIDER_SUSPENDED
      else .error ERR_INVALID_CREDENTIALS

/-- Clarity `update-provider-credentials`. -/
def updateProviderCredentials (txSender provider : String)
    (newExpiresAt : Nat) (newCredentialTypes : List String) (height : Nat)
    (vs : VerificationState) : Except Nat VerificationState :=
  if txSender ≠ vs.owner then .error ERR_NOT_AUTHORIZED
  else
    match alookup provider vs.providerCredentials with
    | none => .error ERR_PROVIDER_NOT_FOUND
    | some creds =>
      if ¬ newExpiresAt > height then .error ERR_INVALID_EXPIRY_DATE
      else if ¬ validateCredentialTypes vs newCredentialTypes then
        .error ERR_INVALID_CREDENTIAL_TYPE
      else
        .ok { vs with
          providerCredentials := aset provider
            { creds with
              credentialTypes := newCredentialTypes
              expiresAt := newExpiresAt
              lastVerified := height } vs.providerCredentials }

/-- Clarity `suspend-provider` (does not read the block height). -/
def suspendProvider (txSender provider reason : String) (_height : Nat)
    (vs : VerificationState) : Except Nat VerificationState :=
  if txSender ≠ vs.owner then .error ERR_NOT_AUTHORIZED
  else
    match alookup provider vs.providerStatus with
    | none => .error ERR_PROVIDER_NOT_FOUND
    | some stat =>
      match alookup provider vs.providerCredentials with
      | none => .error RUNTIME_ABORT
      | some creds =>
        .ok { vs with
          providerStatus := aset provider
            { stat with status := "suspended", updatedBy := txSender }
            vs.providerStatus
          providerCredentials := aset provider
            { creds with suspensionReason := some reason }
            vs.providerCredentials }

/-- Clarity `record-provider-activity`, gated on `contract-caller` being the
access-control contract. -/
def recordProviderActivity (contractCaller provider : String) (height : Nat)
    (vs : VerificationState) : Except Nat VerificationState :=
  if contractCaller ≠ accessControlContract then .error ERR_NOT_AUTHORIZED
  else
    match alookup provider vs.providerStatus with
    | none => .error ERR_PROVIDER_NOT_FOUND
    | some stat =>
      .ok { vs with
        providerStatus := aset provider
          { stat with
            lastActivity := height
            accessCount := stat.accessCount + 1 } vs.providerStatus }

/-- Clarity `add-credential-type`. -/
def addCredentialType (txSender credentialType description : String)
    (requiredForAccess : Bool) (height : Nat)
    (vs : VerificationState) : Except Nat VerificationState :=
  if txSender ≠ vs.owner then .error ERR_NOT_AUTHORIZED
  else
    .ok { vs with
      validCredentialTypes := aset credentialType
        { description := description
          requiredForAccess := requiredForAccess
          createdAt := height } vs.validCredentialTypes }

/-! ### Audit Log — `audit-trail.clar` -/

def ERR_INVALID_EVENT : Nat := 200

def ERR_UNAUTHORIZED_LOGGER : Nat := 201

def ERR_EVENT_NOT_FOUND : Nat := 202

/-- Row of the `audit-events` map. -/
structure AuditEvent where
  patientBns : String
  provider : String
  eventType : String
  blockHeight : Nat
  recordScope : List String
  details : Option String
deriving DecidableEq, Repr

/-- State of the `audit-trail` contract: the event store, the per-patient
secondary index and the per-patient running count. -/
structure AuditState where
  auditEvents : List (String × AuditEvent)
  patientEventIndex : List ((String × Nat) × String)
  patientEventCount : List (String × Nat)
deriving DecidableEq, Repr

/-- Clarity `log-event`, gated on `contract-caller` being the access-control
contract. -/
def logEvent (contractCaller eventId patientBns provider eventType : String)
    (recordScope : List String) (details : Option String) (height : Nat)
    (as : AuditState) : Except Nat AuditState :=
  if contractCaller ≠ accessControlContract then .error ERR_UNAUTHORIZED_LOGGER
  else if ¬ eventId.length > 0 then .error ERR_INVALID_EVENT
  else if ¬ (alookup eventId as.auditEvents).isNone then .error ERR_INVALID_EVENT
  else if ¬ patientBns.length > 0 then .error ERR_INVALID_EVENT
  else if ¬ eventType.length > 0 then .error ERR_INVALID_EVENT
  else
    let currentCount := (alookup patientBns as.patientEventCount).getD 0
    .ok
      { auditEvents := aset eventId
          { patientBns := patientBns
            provider := provider
            eventType := eventType
            blockHeight := height
            recordScope := recordScope
            details := details } as.auditEvents
        patientEventIndex := aset (patientBns, currentCount) eventId
          as.patientEventIndex
        patientEventCount := aset patientBns (currentCount + 1)
          as.patientEventCount }

/-- Clarity `get-patient-audit-trail` (read-only). -/
def getPatientAuditTrail (patientBns : String) (as : AuditState) :
    Except Nat Nat :=
  match alookup patientBns as.patientEventCount with
  | some c => .ok c
  | none => .ok 0

/-- Clarity `get-event-details` (read-only). -/
def getEventDetails (eventId : String) (as : AuditState) :
    Except Nat (Option AuditEvent) :=
  .ok (alookup eventId as.auditEvents)

/-- Clarity `get-patient-event-id` (read-only). -/
def getPatientEventId (patientBns : String) (eventNumber : Nat)
    (as : AuditState) : Except Nat (Option String) :=
  .ok (alookup (patientBns, eventNumber) as.patientEventIndex)

/-! ### Consent & Grant Ledger — `access-control.clar` -/

def ERR_NOT_AUTHORIZED_AC : Nat := 100

def ERR_INVALID_GRANT : Nat := 101

def ERR_GRANT_EXPIRED : Nat := 102

def ERR_GRANT_NOT_FOUND : Nat := 103

def ERR_PROVIDER_NOT_VERIFIED : Nat := 104

def ERR_INVALID_PATIENT_BNS : Nat := 105

def ERR_INVALID_SCOPE : Nat := 106

/-- Row of the `access-grants` map, keyed by (patient-bns, provider). -/
structure AccessGrant where
  expiryBlock : Nat
  recordScope : List String
  grantedAt : Nat
  grantedBy : String
  status : String
  maxAccesses : Option Nat
  accessCount : Nat
  lastAccessed : Option Nat
deriving DecidableEq, Repr

/-- The combined on-chain state the access-control contract operates on:
its own `access-grants` map plus the two contracts it calls into.  The
audit-trail state is included so that the effect (or absence of effect)
of each operation on the Audit Log is part of every statement. -/
structure ChainState where
  accessGrants : List ((String × String) × AccessGrant)
  verif : VerificationState
  audit : AuditState
deriving DecidableEq, Repr

/-- Clarity `grant-access`.  Calls `verify-provider` and, after writing the grant,
`record-provider-activity`; a failure of the latter aborts the whole
transaction (`try!`). -/
def grantAccess (txSender provider patientBns : String) (expiryBlock : Nat)
    (recordScope : List String) (maxAccesses : Option Nat) (height : Nat)
    (s : ChainState) : Except Nat ChainState :=
  match verifyProvider provider height s.verif with
  | .error _ => .error ERR_PROVIDER_NOT_VERIFIED
  | .ok _ =>
    if ¬ patientBns.length > 0 then .error ERR_INVALID_PATIENT_BNS
    else if ¬ expiryBlock > height then .error ERR_INVALID_GRANT
    else if ¬ recordScope.length > 0 then .error ERR_INVALID_SCOPE
    else
      let grants := aset (patientBns, provider)
        { expiryBlock := expiryBlock
          recordScope := recordScope
          grantedAt := height
          grantedBy := txSender
          status := "active"
          maxAccesses := maxAccesses
          accessCount := 0
          lastAccessed := none } s.accessGrants
      match recordProviderActivity accessControlContract provider height s.verif with
      | .error e => .error e
      | .ok vs' => .ok { s with accessGrants := grants, verif := vs' }

/-- Clarity `revoke-access`. -/
def revokeAccess (provider patientBns : String) (s : ChainState) :
    Except Nat ChainState :=
  match alookup (patientBns, provider) s.accessGrants with
  | none => .error ERR_GRANT_NOT_FOUND
  | some grant =>
    .ok { s with
      accessGrants := aset (patientBns, provider)
        { grant with status := "revoked" } s.accessGrants }

/-- The usage-budget clause of `has-access`: no `max-accesses` set, or
`access-count` still strictly below it. -/
def underMaxAccesses (grant : AccessGrant) : Bool :=
  match grant.maxAccesses with
  | some maxAcc => grant.accessCount < maxAcc
  | none => true

/-- Clarity `has-access` (read-only). -/
def hasAccess (provider patientBns : String) (height : Nat)
    (s : ChainState) : Except Nat Bool :=
  match alookup (patientBns, provider) s.accessGrants with
  | none => .error ERR_GRANT_NOT_FOUND
  | some grant =>
    if grant.status = "active" ∧ grant.expiryBlock > height ∧
        underMaxAccesses grant = true then
      .ok true
    else if height > grant.expiryBlock then .error ERR_GRANT_EXPIRED
    else .error ERR_INVALID_GRANT

/-- Clarity `use-access`.  Re-runs `has-access`, then increments the counter and
calls `record-provider-activity`; the `unwrap-panic` branch is
unreachable because `has-access` succeeded. -/
def useAccess (provider patientBns : String) (height : Nat)
    (s : ChainState) : Except Nat ChainState :=
  match hasAccess provider patientBns height s with
  | .error e => .error e
  | .ok _ =>
    match alookup (patientBns, provider) s.accessGrants with
    | none => .error RUNTIME_ABORT
    | some grant =>
      let grants := aset (patientBns, provider)
        { grant with
          accessCount := grant.accessCount + 1
          lastAccessed := some height } s.accessGrants
      match recordProviderActivity accessControlContract provider height s.verif with
      | .error e => .error e
      | .ok vs' => .ok { s with accessGrants := grants, verif := vs' }

/-- Clarity `get-access-grant` (read-only). -/
def getAccessGrant (provider patientBns : String) (s : ChainState) :
    Except Nat (Option AccessGrant) :=
  .ok (alookup (patientBns, provider) s.accessGrants)

/-- Clarity `has-record-scope-access` (read-only); the `index-of` membership test
is modelled as list membership. -/
def hasRecordScopeAccess (provider patientBns recordType : String)
    (height : Nat) (s : ChainState) : Except Nat Bool :=
  match alookup (patientBns, provider) s.accessGrants with
  | none => .error ERR_GRANT_NOT_FOUND
  | some grant =>
    if grant.status = "active" ∧ grant.expiryBlock > height ∧
        recordType ∈ grant.recordScope then
      .ok true
    else .error ERR_INVALID_GRANT

/-! ### Concrete states used by witnesses and counterexamples -/

/-- A registry state in which `provider-A` has been registered (height 5,
credentials expiring at height 10000) and `medical-license` is a valid
credential type; exactly the state `register-provider` produces. -/
def vs1 : VerificationState :=
  { owner := "deployer"
    providerCredentials := [("provider-A",
      { licenseNumber := "LIC-1"
        credentialTypes := ["medical-license"]
        issuedAt := 5
        expiresAt := 10000
        issuingAuthority := "Board"
        verificationStatus := "verified"
        lastVerified := 5
        suspensionReason := none })]
    validCredentialTypes := [("medical-license",
      { description := "MD"
        requiredForAccess := true
        createdAt := 1 })]
    credentialVerifications := [(("provider-A", "verification-id"),
      { verifiedBy := "deployer"
        verificationDate := 5
        credentialHash := "abc123"
        verificationResult := "verified"
        notes := none })]
    providerStatus := [("provider-A",
      { registrationDate := 5
        lastActivity := 5
        accessCount := 0
        status := "active"
        updatedBy := "deployer" })] }

/-- Combined chain state over `vs1` with no grants and an empty audit log. -/
def cs0 : ChainState :=
  { accessGrants := []
    verif := vs1
    audit := { auditEvents := [], patientEventIndex := [], patientEventCount := [] } }

/-- An access grant whose usage budget is exhausted: `max-accesses` 2,
`access-count` 2, still `"active"` and unexpired until height 100. -/
def gExhausted : AccessGrant :=
  { expiryBlock := 100
    recordScope := ["lab-results"]
    grantedAt := 10
    grantedBy := "deployer"
    status := "active"
    maxAccesses := some 2
    accessCount := 2
    lastAccessed := some 12 }

/-- Chain state holding `gExhausted` for (`patient-1`, `provider-A`). -/
def csExhausted : ChainState :=
  { accessGrants := [(("patient-1", "provider-A"), gExhausted)]
    verif := vs1
    audit := { auditEvents := [], patientEventIndex := [], patientEventCount := [] } }

/-- State after a successful `grant-access` of (`patient-1`, `provider-A`)
at height 10 with expiry 100 on `cs0`. -/
def csGranted : ChainState :=
  runTx (grantAccess "deployer" "provider-A" "patient-1" 100 ["lab-results"]
    none 10) cs0

/-- The maximum grant duration named by the spec ("~1 year of blocks");
valued from the repository's `MAX-GRANT-DURATION` constant (`u52560000`).
The access-control contract's `grant-access` never consults any such
bound. -/
def MAX_GRANT_DURATION : Nat := 52560000

/-- State after `grant-access` on `cs0` at height 10 with an expiry more
than `MAX_GRANT_DURATION` blocks away. -/
def csLongGrant : ChainState :=
  runTx (grantAccess "deployer" "provider-A" "patient-1"
    (10 + MAX_GRANT_DURATION + 1) ["lab-results"] none 10) cs0

/-- State after suspending `provider-A` in `vs1`. -/
def vsSuspended : VerificationState :=
  match suspendProvider "deployer" "provider-A" "fraud" 20 vs1 with
  | .ok vs' => vs'
  | .error _ => vs1

/-- A registry state holding only the `medical-license` credential type
and no providers. -/
def vs0 : VerificationState :=
  { owner := "deployer"
    providerCredentials := []
    validCredentialTypes := [("medical-license",
      { description := "MD"
        requiredForAccess := true
        createdAt := 1 })]
    credentialVerifications := []
    providerStatus := [] }

/-! ### Operation traces over the access-control contract -/

/-- The public mutating operations of the access-control contract. -/
inductive Op where
  | grantOp (txSender provider patientBns : String) (expiryBlock : Nat)
      (recordScope : List String) (maxAccesses : Option Nat)
  | revokeOp (provider patientBns : String)
  | useOp (provider patientBns : String)
deriving DecidableEq, Repr

/-- Executes one operation, submitted at a given block height, with
Clarity's commit-or-discard transaction semantics. -/
def stepOp : Op × Nat → ChainState → ChainState
  | (.grantOp txSender provider patientBns expiryBlock recordScope
      maxAccesses, height), s =>
    runTx (grantAccess txSender provider patientBns expiryBlock recordScope
      maxAccesses height) s
  | (.revokeOp provider patientBns, _height), s =>
    runTx (revokeAccess provider patientBns) s
  | (.useOp provider patientBns, height), s =>
    runTx (useAccess provider patientBns height) s

/-- Executes a list of (operation, height) transactions in order. -/
def runTrace (trace : List (Op × Nat)) (s : ChainState) : ChainState :=
  trace.foldl (fun st oh => stepOp oh st) s

/-- Holds when the operation is a `grant-access` on the given
(provider, patient) pair — the only operation that can overwrite a
revoked grant. -/
def isGrantOn (provider patientBns : String) : Op → Bool
  | .grantOp _ p pb _ _ _ => p == provider && pb == patientBns
  | _ => false

/-- Bool test that an `Except` result is an error. -/
def isErrResult {ε α : Type} : Except ε α → Bool
  | .error _ => true
  | .ok _ => false

/-- Repeated `use-access` on the same pair, all submitted at the same
height, each with commit-or-discard semantics. -/
def iterUse (provider patientBns : String) (height : Nat) :
    Nat → ChainState → ChainState
  | 0, s => s
  | k + 1, s => iterUse provider patientBns height k
      (runTx (useAccess provider patientBns height) s)

/-- State after a successful `grant-access` with `max-accesses = some 2`
at height 10 on `cs0`. -/
def csGranted2 : ChainState :=
  runTx (grantAccess "deployer" "provider-A" "patient-1" 100 ["lab-results"]
    (some 2) 10) cs0

/-! ### Helper lemmas about association-list maps and traces -/

theorem alookup_aset_same {α β : Type} [DecidableEq α] (k : α) (v : β)
    (m : List (α × β)) : alookup k (aset k v m) = some v := by
  induction m with
  | nil => simp [alookup, aset]
  | cons hd tl ih =>
    obtain ⟨k', v'⟩ := hd
    by_cases hk : k' = k
    · simp [alookup, aset, hk]
    · simp [alookup, aset, hk, ih]

theorem alookup_aset_other {α β : Type} [DecidableEq α] (k k' : α) (v : β)
    (m : List (α × β)) (hne : k' ≠ k) :
    alookup k' (aset k v m) = alookup k' m := by
  have hne' : k ≠ k' := Ne.symm hne
  induction m with
  | nil => simp [alookup, aset, hne']
  | cons hd tl ih =>
    obtain ⟨k0, v0⟩ := hd
    by_cases hk : k0 = k
    · subst hk
      simp [alookup, aset, hne']
    · simp only [aset, if_neg hk, alookup]
      by_cases hk0 : k0 = k'
      · simp [hk0]
      · simp [hk0, ih]

theorem aset_append_of_not_mem {α β : Type} [DecidableEq α] (k : α) (v : β)
    (m : List (α × β)) (habs : alookup k m = none) :
    aset k v m = m ++ [(k, v)] := by
  induction m with
  | nil => simp [aset]
  | cons hd tl ih =>
    obtain ⟨k', v'⟩ := hd
    by_cases hk : k' = k
    · simp [alookup, hk] at habs
    · simp only [alookup, if_neg hk] at habs
      simp [aset, hk, ih habs]

theorem alookup_mem {α β : Type} [DecidableEq α] (k : α) (v : β)
    (m : List (α × β)) (h : alookup k m = some v) : (k, v) ∈ m := by
  induction m with
  | nil => simp [alookup] at h
  | cons hd tl ih =>
    obtain ⟨k', v'⟩ := hd
    by_cases hk : k' = k
    · subst hk
      simp [alookup] at h
      subst h
      exact List.mem_cons_self _ _
    · simp [alookup, hk] at h
      exact List.mem_cons_of_mem _ (ih h)

theorem hasAccess_revoked_err (provider patientBns : String) (height : Nat)
    (s : ChainState) (g : AccessGrant)
    (hlook : alookup (patientBns, provider) s.accessGrants = some g)
    (hrev : g.status = "revoked") :
    isErrResult (hasAccess provider patientBns height s) = true := by
  have hne : ¬ g.status = "active" := by simp [hrev]
  by_cases hgt : height > g.expiryBlock <;>
    simp [hasAccess, hlook, hne, hgt, isErrResult]

theorem revoked_status_preserved_step (provider patientBns : String)
    (oh : Op × Nat) (s : ChainState) (g : AccessGrant)
    (hlook : alookup (patientBns, provider) s.accessGrants = some g)
    (hrev : g.status = "revoked")
    (hnog : isGrantOn provider patientBns oh.1 = false) :
    ∃ g', alookup (patientBns, provider) (stepOp oh s).accessGrants = some g' ∧
      g'.status = "revoked" := by
  obtain ⟨op, height⟩ := oh
  cases op with
  | grantOp txS p pb e sc mx =>
    have hkey : (patientBns, provider) ≠ (pb, p) := by
      simp [isGrantOn] at hnog
      intro hcon
      obtain ⟨h1, h2⟩ := Prod.mk.injEq .. ▸ hcon
      subst h1; subst h2
      simp at hnog
    refine ⟨g, ?_, hrev⟩
    show alookup (patientBns, provider)
      (runTx (grantAccess txS p pb e sc mx height) s).accessGrants = some g
    unfold runTx
    split
    next s' hok =>
      unfold grantAccess at hok
      repeat' split at hok
      all_goals try (exfalso; exact Except.noConfusion hok)
      injection hok with hok
      subst hok
      show alookup (patientBns, provider) (aset (pb, p) _ s.accessGrants) = some g
      rw [alookup_aset_other _ _ _ _ hkey]
      exact hlook
    next e' herr => exact hlook
  | revokeOp p pb =>
    by_cases hkey : (patientBns, provider) = (pb, p)
    · obtain ⟨h1, h2⟩ := Prod.mk.injEq .. ▸ hkey
      subst h1; subst h2
      refine ⟨{ g with status := "revoked" }, ?_, rfl⟩
      show alookup (patientBns, provider)
        (runTx (revokeAccess provider patientBns) s).accessGrants =
        some { g with status := "revoked" }
      simp [runTx, revokeAccess, hlook, alookup_aset_same]
    · refine ⟨g, ?_, hrev⟩
      show alookup (patientBns, provider)
        (runTx (revokeAccess p pb) s).accessGrants = some g
      unfold runTx
      split
      next s' hok =>
        unfold revokeAccess at hok
        repeat' split at hok
        all_goals try (exfalso; exact Except.noConfusion hok)
        injection hok with hok
        subst hok
        show alookup (patientBns, provider) (aset (pb, p) _ s.accessGrants) = some g
        rw [alookup_aset_other _ _ _ _ hkey]
        exact hlook
      next e' herr => exact hlook
  | useOp p pb =>
    by_cases hkey : (patientBns, provider) = (pb, p)
    · obtain ⟨h1, h2⟩ := Prod.mk.injEq .. ▸ hkey
      subst h1; subst h2
      refine ⟨g, ?_, hrev⟩
      have herr := hasAccess_revoked_err provider patientBns height s g
        hlook hrev
      show alookup (patientBns, provider)
        (runTx (useAccess provider patientBns height) s).accessGrants = some g
      unfold runTx
      split
      next s' hok =>
        exfalso
        unfold useAccess at hok
        cases hha : hasAccess provider patientBns height s with
        | error e => rw [hha] at hok; exact Except.noConfusion hok
        | ok b => rw [hha] at herr; simp [isErrResult] at herr
      next e' herr' => exact hlook
    · refine ⟨g, ?_, hrev⟩
      show alookup (patientBns, provider)
        (runTx (useAccess p pb height) s).accessGrants = some g
      unfold runTx
      split
      next s' hok =>
        unfold useAccess at hok
        repeat' split at hok
        all_goals try (exfalso; exact Except.noConfusion hok)
        injection hok with hok
        subst hok
        show alookup (patientBns, provider) (aset (pb, p) _ s.accessGrants) = some g
        rw [alookup_aset_other _ _ _ _ hkey]
        exact hlook
      next e' herr' => exact hlook

theorem revoked_status_preserved_trace (provider patientBns : String)
    (trace : List (Op × Nat)) :
    ∀ (s : ChainState) (g : AccessGrant),
      alookup (patientBns, provider) s.accessGrants = some g →
      g.status = "revoked" →
      (∀ oh ∈ trace, isGrantOn provider patientBns oh.1 = false) →
      ∃ g', alookup (patientBns, provider)
          (runTrace trace s).accessGrants = some g' ∧
        g'.status = "revoked" := by
  induction trace with
  | nil => exact fun s g hlook hrev _ => ⟨g, hlook, hrev⟩
  | cons oh rest ih =>
    intro s g hlook hrev hnog
    obtain ⟨g1, hlook1, hrev1⟩ := revoked_status_preserved_step provider
      patientBns oh s g hlook hrev (hnog oh (List.mem_cons_self _ _))
    exact ih (stepOp oh s) g1 hlook1 hrev1
      (fun oh' hm => hnog oh' (List.mem_cons_of_mem _ hm))

theorem useAccess_ok_step (provider patientBns : String) (height : Nat)
    (s : ChainState) (g : AccessGrant) (stat : ProviderStatus)
    (hlook : alookup (patientBns, provider) s.accessGrants = some g)
    (hact : g.status = "active") (hexp : g.expiryBlock > height)
    (hunder : underMaxAccesses g = true)
    (hstat : alookup provider s.verif.providerStatus = some stat) :
    useAccess provider patientBns height s = .ok
      { s with
        accessGrants := aset (patientBns, provider)
          { g with
            accessCount := g.accessCount + 1
            lastAccessed := some height } s.accessGrants
        verif := { s.verif with
          providerStatus := aset provider
            { stat with
              lastActivity := height
              accessCount := stat.accessCount + 1 } s.verif.providerStatus } } := by
  have hha : hasAccess provider patientBns height s = .ok true := by
    simp [hasAccess, hlook, hact, hexp, hunder]
  simp [useAccess, hha, hlook, recordProviderActivity,
    accessControlContract, hstat]

theorem iterUse_invariant (provider patientBns : String) (height n : Nat) :
    ∀ (k : Nat) (s : ChainState) (g : AccessGrant) (stat : ProviderStatus),
      alookup (patientBns, provider) s.accessGrants = some g →
      g.status = "active" → g.expiryBlock > height →
      g.maxAccesses = some n →
      alookup provider s.verif.providerStatus = some stat →
      g.accessCount + k ≤ n →
      ∃ g' stat',
        alookup (patientBns, provider)
          (iterUse provider patientBns height k s).accessGrants = some g' ∧
        g'.status = "active" ∧ g'.expiryBlock = g.expiryBlock ∧
        g'.maxAccesses = some n ∧ g'.accessCount = g.accessCount + k ∧
        alookup provider
          (iterUse provider patientBns height k s).verif.providerStatus =
          some stat' := by
  intro k
  induction k with
  | zero =>
    intro s g stat h1 h2 h3 h4 h5 h6
    exact ⟨g, stat, h1, h2, rfl, h4, by omega, h5⟩
  | succ k ih =>
    intro s g stat h1 h2 h3 h4 h5 h6
    have hunder : underMaxAccesses g = true := by
      simp [underMaxAccesses, h4]
      omega
    have hstep := useAccess_ok_step provider patientBns height s g stat
      h1 h2 h3 hunder h5
    have hrun : runTx (useAccess provider patientBns height) s =
        { s with
          accessGrants := aset (patientBns, provider)
            { g with
              accessCount := g.accessCount + 1
              lastAccessed := some height } s.accessGrants
          verif := { s.verif with
            providerStatus := aset provider
              { stat with
                lastActivity := height
                accessCount := stat.accessCount + 1 }
              s.verif.providerStatus } } := by
      simp [runTx, hstep]
    obtain ⟨g', stat', hh1, hh2, hh3, hh4, hh5, hh6⟩ := ih
      (runTx (useAccess provider patientBns height) s)
      { g with
        accessCount := g.accessCount + 1
        lastAccessed := some height }
      { stat with
        lastActivity := height
        accessCount := stat.accessCount + 1 }
      (by rw [hrun]; exact alookup_aset_same _ _ _)
      h2 h3 h4
      (by rw [hrun]; exact alookup_aset_same _ _ _)
      (by simp; omega)
    refine ⟨g', stat', ?_, hh2, hh3, hh4, ?_, ?_⟩
    · show alookup (patientBns, provider)
        (iterUse provider patientBns height k
          (runTx (useAccess provider patientBns height) s)).accessGrants =
        some g'
      exact hh1
    · simp at hh5
      omega
    · show alookup provider
        (iterUse provider patientBns height k
          (runTx (useAccess provider patientBns height) s)).verif.providerStatus =
        some stat'
      exact hh6

/-! ### Claim theorems -/

/-- C2: for every caller identity other than the access-control contract,
`record-provider-activity` fails with `ERR-NOT-AUTHORIZED` (`err u300`)
and leaves the `provider-status` map (indeed the whole registry state)
unchanged; when the caller is the access-control contract and a status
record exists, it increments `access-count` by one and sets
`last-activity` to the current height. -/
theorem record_provider_activity_gated (caller provider : String)
    (height : Nat) (vs : VerificationState) :
    (caller ≠ accessControlContract →
      recordProviderActivity caller provider height vs =
        .error ERR_NOT_AUTHORIZED ∧
      runTx (recordProviderActivity caller provider height) vs = vs) ∧
    (∀ stat, caller = accessControlContract →
      alookup provider vs.providerStatus = some stat →
      recordProviderActivity caller provider height vs =
        .ok { vs with providerStatus := aset provider
                        { stat with
                          lastActivity := height
                          accessCount := stat.accessCount + 1 }
                        vs.providerStatus }) := by
  constructor
  · intro hne
    simp [recordProviderActivity, hne, runTx]
  · intro stat hcaller hlook
    simp [recordProviderActivity, hcaller, hlook]

/-- Witness for C2 at a concrete registry state. -/
theorem record_provider_activity_gated_witness :
    recordProviderActivity "mallory" "provider-A" 7 vs1 =
      .error ERR_NOT_AUTHORIZED ∧
    recordProviderActivity accessControlContract "provider-A" 7 vs1 =
      .ok { vs1 with providerStatus := aset "provider-A"
                       { registrationDate := 5
                         lastActivity := 7
                         accessCount := 1
                         status := "active"
                         updatedBy := "deployer" }
                       vs1.providerStatus } :=
  ⟨((record_provider_activity_gated "mallory" "provider-A" 7 vs1).1
      (by decide)).1,
   (record_provider_activity_gated accessControlContract "provider-A" 7 vs1).2
      { registrationDate := 5
        lastActivity := 5
        accessCount := 0
        status := "active"
        updatedBy := "deployer" } rfl (by decide)⟩

/-- C10: `has-record-scope-access` does not consult the usage budget.  For
a grant that is stored as `"active"`, unexpired, and whose scope contains
the queried record type, it answers `(ok true)` even when `access-count`
has reached `max-accesses` — the very situation in which `has-access` on
the same pair fails with `ERR-INVALID-GRANT` (usage exhaustion). -/
theorem has_record_scope_access_ignores_budget
    (provider patientBns recordType : String) (height : Nat)
    (s : ChainState) (grant : AccessGrant) (maxAcc : Nat)
    (hlook : alookup (patientBns, provider) s.accessGrants = some grant)
    (hstatus : grant.status = "active")
    (hexp : grant.expiryBlock > height)
    (hscope : recordType ∈ grant.recordScope)
    (hmax : grant.maxAccesses = some maxAcc)
    (hcount : maxAcc ≤ grant.accessCount) :
    hasRecordScopeAccess provider patientBns recordType height s = .ok true ∧
    hasAccess provider patientBns height s = .error ERR_INVALID_GRANT := by
  constructor
  · simp [hasRecordScopeAccess, hlook, hstatus, hexp, hscope]
  · have hunder : underMaxAccesses grant = false := by
      simp [underMaxAccesses, hmax]
      omega
    have hnotgt : ¬ height > grant.expiryBlock := by omega
    simp [hasAccess, hlook, hunder, hnotgt]

/-- Witness for C10 at the exhausted grant `gExhausted`. -/
theorem has_record_scope_access_ignores_budget_witness :
    hasRecordScopeAccess "provider-A" "patient-1" "lab-results" 50 csExhausted =
      .ok true ∧
    hasAccess "provider-A" "patient-1" 50 csExhausted =
      .error ERR_INVALID_GRANT :=
  has_record_scope_access_ignores_budget "provider-A" "patient-1" "lab-results"
    50 csExhausted gExhausted 2 (by decide) (by decide) (by decide) (by decide)
    (by decide) (by decide)

/-- C6: `log-event` (called by the access-control contract, the only
caller its gate admits) fails with `ERR-INVALID-EVENT` (`err u200`)
whenever the event id is empty, already used, or the patient or
event-type string is empty; on a duplicate event id the patient's event
count is unchanged; on success the event record, the index entry at the
prior count, and the incremented count are all present in the single
committed post-state — the transaction either writes all three or,
failing, writes nothing, so no partial index update is observable. -/
theorem log_event_validation_and_atomicity
    (eventId patientBns provider eventType : String)
    (recordScope : List String) (details : Option String) (height : Nat)
    (as : AuditState) :
    (eventId.length = 0 ∨ (alookup eventId as.auditEvents).isSome = true ∨
        patientBns.length = 0 ∨ eventType.length = 0 →
      logEvent accessControlContract eventId patientBns provider eventType
        recordScope details height as = .error ERR_INVALID_EVENT) ∧
    ((alookup eventId as.auditEvents).isSome = true →
      getPatientAuditTrail patientBns
        (runTx (logEvent accessControlContract eventId patientBns provider
          eventType recordScope details height) as) =
      getPatientAuditTrail patientBns as) ∧
    (∀ as', eventId.length > 0 → patientBns.length > 0 →
      eventType.length > 0 → alookup eventId as.auditEvents = none →
      logEvent accessControlContract eventId patientBns provider eventType
        recordScope details height as = .ok as' →
      alookup eventId as'.auditEvents = some
        { patientBns := patientBns
          provider := provider
          eventType := eventType
          blockHeight := height
          recordScope := recordScope
          details := details } ∧
      alookup (patientBns, (alookup patientBns as.patientEventCount).getD 0)
        as'.patientEventIndex = some eventId ∧
      getPatientAuditTrail patientBns as' =
        .ok ((alookup patientBns as.patientEventCount).getD 0 + 1)) := by
  refine ⟨?_, ?_, ?_⟩
  · intro hbad
    by_cases h1 : eventId.length = 0
    · simp [logEvent, accessControlContract, h1]
    · by_cases h2 : (alookup eventId as.auditEvents).isSome = true
      · simp [logEvent, accessControlContract, h1, Option.isSome_iff_ne_none.mp h2]
      · rcases hbad with hb | hb | hb | hb
        · exact absurd hb h1
        · exact absurd hb h2
        · simp [logEvent, accessControlContract, h1, h2, hb,
            Option.not_isSome_iff_eq_none.mp (by simpa using h2)]
        · by_cases h3 : patientBns.length = 0 <;>
            simp [logEvent, accessControlContract, h1, h3, hb,
              Option.not_isSome_iff_eq_none.mp (by simpa using h2)]
  · intro hdup
    have : logEvent accessControlContract eventId patientBns provider eventType
        recordScope details height as = .error ERR_INVALID_EVENT := by
      by_cases h1 : eventId.length = 0
      · simp [logEvent, accessControlContract, h1]
      · simp [logEvent, accessControlContract, h1,
          Option.isSome_iff_ne_none.mp hdup]
    simp [runTx, this]
  · intro as' h1 h2 h3 hnone hok
    have hnot1 : ¬ eventId.length = 0 := by omega
    have hnot2 : ¬ patientBns.length = 0 := by omega
    have hnot3 : ¬ eventType.length = 0 := by omega
    simp [logEvent, accessControlContract, hnot1, hnot2, hnot3, hnone] at hok
    subst hok
    refine ⟨?_, ?_, ?_⟩
    · exact alookup_aset_same _ _ _
    · exact alookup_aset_same _ _ _
    · simp [getPatientAuditTrail, alookup_aset_same]

/-- Witness for C6: an empty audit log accepts `evt-1` and then rejects
it as a duplicate, leaving the count at 1. -/
theorem log_event_validation_and_atomicity_witness :
    logEvent accessControlContract "" "patient-1" "provider-A" "access"
      ["lab-results"] none 12
      { auditEvents := [], patientEventIndex := [], patientEventCount := [] } =
      .error ERR_INVALID_EVENT ∧
    alookup "evt-1"
      (runTx (logEvent accessControlContract "evt-1" "patient-1" "provider-A"
        "access" ["lab-results"] none 12)
        { auditEvents := [], patientEventIndex := [], patientEventCount := [] }).auditEvents =
      some
        { patientBns := "patient-1"
          provider := "provider-A"
          eventType := "access"
          blockHeight := 12
          recordScope := ["lab-results"]
          details := none } := by
  constructor
  · exact (log_event_validation_and_atomicity "" "patient-1" "provider-A"
      "access" ["lab-results"] none 12
      { auditEvents := [], patientEventIndex := [], patientEventCount := [] }).1
      (Or.inl (by decide))
  · exact ((log_event_validation_and_atomicity "evt-1" "patient-1" "provider-A"
      "access" ["lab-results"] none 12
      { auditEvents := [], patientEventIndex := [], patientEventCount := [] }).2.2
      _ (by decide) (by decide) (by decide) (by decide) (by decide)).1

/-- C1, counterexample: at `cs0` the call
`grant-access(provider-A, patient-1, 100, [lab-results], none)` succeeds,
and the subsequent `use-access` succeeds, yet `patient-1`'s audit event
count is 0 before and 0 after each call — not one greater, because
neither operation ever invokes the Audit Log's `log-event`. -/
theorem grant_use_access_no_audit_counterexample :
    (grantAccess "deployer" "provider-A" "patient-1" 100 ["lab-results"]
      none 10 cs0).isOk = true ∧
    getPatientAuditTrail "patient-1" cs0.audit = .ok 0 ∧
    getPatientAuditTrail "patient-1" csGranted.audit = .ok 0 ∧
    (useAccess "provider-A" "patient-1" 12 csGranted).isOk = true ∧
    getPatientAuditTrail "patient-1"
      (runTx (useAccess "provider-A" "patient-1" 12) csGranted).audit =
      .ok 0 := by decide

/-- C1, amended: a successful `grant-access` or `use-access` records
provider activity in the Credential Registry but never calls the Audit
Log's `log-event`; the entire audit-trail state — in particular every
patient's audit event count — is unchanged by these operations. -/
theorem grant_use_access_leave_audit_unchanged
    (txSender provider patientBns : String) (expiryBlock : Nat)
    (recordScope : List String) (maxAccesses : Option Nat) (height : Nat)
    (s s' : ChainState) :
    (grantAccess txSender provider patientBns expiryBlock recordScope
        maxAccesses height s = .ok s' → s'.audit = s.audit) ∧
    (useAccess provider patientBns height s = .ok s' → s'.audit = s.audit) := by
  constructor
  · intro h
    unfold grantAccess at h
    repeat' split at h
    all_goals simp_all
    subst h
    rfl
  · intro h
    unfold useAccess at h
    repeat' split at h
    all_goals simp_all
    subst h
    rfl

/-- Witness for the amended C1 at the concrete grant and use above. -/
theorem grant_use_access_leave_audit_unchanged_witness :
    csGranted.audit = cs0.audit ∧
    (runTx (useAccess "provider-A" "patient-1" 12) csGranted).audit =
      csGranted.audit :=
  ⟨(grant_use_access_leave_audit_unchanged "deployer" "provider-A"
      "patient-1" 100 ["lab-results"] none 10 cs0 csGranted).1 (by decide),
   (grant_use_access_leave_audit_unchanged "deployer" "provider-A"
      "patient-1" 100 ["lab-results"] none 12 csGranted
      (runTx (useAccess "provider-A" "patient-1" 12) csGranted)).2 (by decide)⟩

/-- C5, counterexample: at height 10, `grant-access` with the requested
expiry `10 + MAX_GRANT_DURATION + 1` succeeds instead of failing with
`ERR-INVALID-GRANT`, and the created grant has
`expiry-block − granted-at > MAX_GRANT_DURATION`: no maximum-duration
check exists in `grant-access`. -/
theorem grant_access_duration_unbounded_counterexample :
    (grantAccess "deployer" "provider-A" "patient-1"
      (10 + MAX_GRANT_DURATION + 1) ["lab-results"] none 10 cs0).isOk = true ∧
    alookup ("patient-1", "provider-A") csLongGrant.accessGrants = some
      { expiryBlock := 10 + MAX_GRANT_DURATION + 1
        recordScope := ["lab-results"]
        grantedAt := 10
        grantedBy := "deployer"
        status := "active"
        maxAccesses := none
        accessCount := 0
        lastAccessed := none } ∧
    (10 + MAX_GRANT_DURATION + 1) - 10 > MAX_GRANT_DURATION := by decide

/-- C5, amended: every grant created by `grant-access` satisfies
`expiry-block > granted-at`, and `grant-access` fails with
`ERR-INVALID-GRANT` (`err u101`) exactly when the requested expiry-block
is not strictly greater than the current height (given that the provider
verifies and the patient id is non-empty); no maximum grant duration is
enforced — with a valid scope and an existing provider-status record,
any strictly-future expiry is accepted, however distant. -/
theorem grant_access_expiry_validation
    (txSender provider patientBns : String) (expiryBlock : Nat)
    (recordScope : List String) (maxAccesses : Option Nat) (height : Nat)
    (s : ChainState) :
    (∀ s', grantAccess txSender provider patientBns expiryBlock recordScope
        maxAccesses height s = .ok s' →
      ∃ g, alookup (patientBns, provider) s'.accessGrants = some g ∧
        g.expiryBlock > g.grantedAt ∧ g.expiryBlock = expiryBlock ∧
        g.grantedAt = height) ∧
    ((verifyProvider provider height s.verif).isOk = true →
      patientBns.length > 0 → expiryBlock ≤ height →
      grantAccess txSender provider patientBns expiryBlock recordScope
        maxAccesses height s = .error ERR_INVALID_GRANT) ∧
    ((verifyProvider provider height s.verif).isOk = true →
      patientBns.length > 0 → expiryBlock > height →
      recordScope.length > 0 →
      (alookup provider s.verif.providerStatus).isSome = true →
      (grantAccess txSender provider patientBns expiryBlock recordScope
        maxAccesses height s).isOk = true) := by
  refine ⟨?_, ?_, ?_⟩
  · intro s' h
    unfold grantAccess at h
    repeat' split at h
    all_goals simp_all
    subst h
    refine ⟨_, alookup_aset_same _ _ _, ?_, rfl, rfl⟩
    simp
    omega
  · intro hver hpat hexp
    match hv : verifyProvider provider height s.verif with
    | .error e =>
      rw [hv] at hver
      simp [Except.isOk, Except.toBool] at hver
    | .ok b =>
      have hpat' : ¬ patientBns.length = 0 := by omega
      have hexp' : ¬ expiryBlock > height := by omega
      simp [grantAccess, hv, hpat', hexp']
  · intro hver hpat hexp hscope hstat
    match hv : verifyProvider provider height s.verif with
    | .error e =>
      rw [hv] at hver
      simp [Except.isOk, Except.toBool] at hver
    | .ok b =>
      match hst : alookup provider s.verif.providerStatus with
      | none => simp [hst] at hstat
      | some stat =>
        have hpat' : ¬ patientBns.length = 0 := by omega
        have hscope' : ¬ recordScope.length = 0 := by omega
        simp [grantAccess, hv, hpat', hexp, hscope',
          recordProviderActivity, accessControlContract, hst, Except.isOk, Except.toBool]

/-- Witness for the amended C5 at the over-one-year grant above. -/
theorem grant_access_expiry_validation_witness :
    (grantAccess "deployer" "provider-A" "patient-1" 5 ["lab-results"]
      none 10 cs0 = .error ERR_INVALID_GRANT) ∧
    (grantAccess "deployer" "provider-A" "patient-1"
      (10 + MAX_GRANT_DURATION + 1) ["lab-results"] none 10 cs0).isOk = true :=
  ⟨(grant_access_expiry_validation "deployer" "provider-A" "patient-1" 5
      ["lab-results"] none 10 cs0).2.1 (by decide) (by decide) (by decide),
   (grant_access_expiry_validation "deployer" "provider-A" "patient-1"
      (10 + MAX_GRANT_DURATION + 1) ["lab-results"] none 10 cs0).2.2
      (by decide) (by decide) (by decide) (by decide) (by decide)⟩

/-- C9, counterexample: at height 10 the registry `vs1` accepts
`update-provider-credentials(provider-A, 11, [medical-license])` — an
expiry only one block in the future, inside the 144-block minimum
validity window — while `register-provider` with the same expiry 11 at
the same height rejects it with `ERR-INVALID-EXPIRY-DATE` (`err u307`):
the two operations do not apply the same expiry validation. -/
theorem update_credentials_window_counterexample :
    (updateProviderCredentials "deployer" "provider-A" 11 ["medical-license"]
      10 vs1).isOk = true ∧
    11 ≤ 10 + MIN_CREDENTIAL_VALIDITY_BLOCKS ∧
    registerProvider "deployer" "provider-B" "LIC-2" ["medical-license"] 11
      "Board" "abc123" 10 vs1 = .error ERR_INVALID_EXPIRY_DATE := by decide

/-- C9, amended: `update-provider-credentials` (administrator caller,
existing record) fails with `ERR-INVALID-EXPIRY-DATE` exactly when the
new expiry is not strictly greater than the current height — unlike
`register-provider`, it does not enforce the 144-block minimum validity
window — and it rejects credential types absent from the
`valid-credential-types` registry exactly as registration does, via the
same `validate-credential-types` check. -/
theorem update_credentials_validation (txSender provider : String)
    (newExpiresAt : Nat) (newCredentialTypes : List String) (height : Nat)
    (vs : VerificationState) (creds : ProviderCredential)
    (hown : txSender = vs.owner)
    (hex : alookup provider vs.providerCredentials = some creds) :
    (updateProviderCredentials txSender provider newExpiresAt
        newCredentialTypes height vs = .error ERR_INVALID_EXPIRY_DATE ↔
      newExpiresAt ≤ height) ∧
    (newExpiresAt > height →
      validateCredentialTypes vs newCredentialTypes = false →
      updateProviderCredentials txSender provider newExpiresAt
        newCredentialTypes height vs = .error ERR_INVALID_CREDENTIAL_TYPE) := by
  constructor
  · constructor
    · intro h
      by_contra hgt
      have hgt' : newExpiresAt > height := by omega
      by_cases hty : validateCredentialTypes vs newCredentialTypes = true
      · simp [updateProviderCredentials, hown, hex, hgt', hty] at h
      · simp [updateProviderCredentials, hown, hex, hgt', hty,
          ERR_INVALID_CREDENTIAL_TYPE, ERR_INVALID_EXPIRY_DATE] at h
    · intro hle
      have hle' : ¬ newExpiresAt > height := by omega
      simp [updateProviderCredentials, hown, hex, hle']
  · intro hgt hty
    simp [updateProviderCredentials, hown, hex, hgt, hty]

/-- Witness for the amended C9 at the registry `vs1`. -/
theorem update_credentials_validation_witness :
    (updateProviderCredentials "deployer" "provider-A" 10 ["medical-license"]
      10 vs1 = .error ERR_INVALID_EXPIRY_DATE) ∧
    (updateProviderCredentials "deployer" "provider-A" 500 ["quackery"]
      10 vs1 = .error ERR_INVALID_CREDENTIAL_TYPE) :=
  ⟨(update_credentials_validation "deployer" "provider-A" 10
      ["medical-license"] 10 vs1
      { licenseNumber := "LIC-1"
        credentialTypes := ["medical-license"]
        issuedAt := 5
        expiresAt := 10000
        issuingAuthority := "Board"
        verificationStatus := "verified"
        lastVerified := 5
        suspensionReason := none } rfl (by decide)).1.mpr (by decide),
   (update_credentials_validation "deployer" "provider-A" 500 ["quackery"]
      10 vs1
      { licenseNumber := "LIC-1"
        credentialTypes := ["medical-license"]
        issuedAt := 5
        expiresAt := 10000
        issuingAuthority := "Board"
        verificationStatus := "verified"
        lastVerified := 5
        suspensionReason := none } rfl (by decide)).2 (by decide) (by decide)⟩

/-- C7: for a registered provider whose credentials have not expired,
once `suspend-provider` succeeds, `verify-provider` returns
`ERR-PROVIDER-SUSPENDED` (`err u304`) and every `grant-access` naming
that provider, run against the suspended registry state, fails with
`ERR-PROVIDER-NOT-VERIFIED` (`err u104`) whatever its other
arguments. -/
theorem suspend_then_verify_and_grant (admin provider reason : String)
    (h0 h : Nat) (vs vs' : VerificationState) (creds : ProviderCredential)
    (hcred : alookup provider vs.providerCredentials = some creds)
    (hsusp : suspendProvider admin provider reason h0 vs = .ok vs')
    (hnotexp : ¬ h > creds.expiresAt) :
    verifyProvider provider h vs' = .error ERR_PROVIDER_SUSPENDED ∧
    (∀ (txSender patientBns : String) (expiryBlock : Nat)
      (recordScope : List String) (maxAccesses : Option Nat) (s : ChainState),
      s.verif = vs' →
      grantAccess txSender provider patientBns expiryBlock recordScope
        maxAccesses h s = .error ERR_PROVIDER_NOT_VERIFIED) := by
  unfold suspendProvider at hsusp
  repeat' split at hsusp
  all_goals try (exfalso; exact Except.noConfusion hsusp)
  rename_i hnadmin xstat stat hstat xcred creds0 hcreds0
  rw [hcred] at hcreds0
  injection hcreds0 with hcreds0
  subst hcreds0
  injection hsusp with hsusp
  subst hsusp
  have hver : verifyProvider provider h
      { vs with
        providerStatus := aset provider
          { stat with status := "suspended", updatedBy := admin }
          vs.providerStatus
        providerCredentials := aset provider
          { creds with suspensionReason := some reason }
          vs.providerCredentials } = .error ERR_PROVIDER_SUSPENDED := by
    simp [verifyProvider, alookup_aset_same, hnotexp]
  refine ⟨hver, ?_⟩
  intro txSender patientBns expiryBlock recordScope maxAccesses s hs
  rw [show grantAccess txSender provider patientBns expiryBlock recordScope
      maxAccesses h s = _ from rfl]
  unfold grantAccess
  rw [hs, hver]

/-- Witness for C7: suspending `provider-A` at height 20 makes
`verify-provider` answer `err u304` and `grant-access` answer
`err u104` at height 25, though the credentials run to height 10000. -/
theorem suspend_then_verify_and_grant_witness :
    verifyProvider "provider-A" 25 vsSuspended =
      .error ERR_PROVIDER_SUSPENDED ∧
    grantAccess "deployer" "provider-A" "patient-1" 100 ["lab-results"]
      none 25
      { accessGrants := []
        verif := vsSuspended
        audit := { auditEvents := [], patientEventIndex := [],
                   patientEventCount := [] } } =
      .error ERR_PROVIDER_NOT_VERIFIED := by
  have hmain := suspend_then_verify_and_grant "deployer" "provider-A" "fraud"
    20 25 vs1 vsSuspended
    { licenseNumber := "LIC-1"
      credentialTypes := ["medical-license"]
      issuedAt := 5
      expiresAt := 10000
      issuingAuthority := "Board"
      verificationStatus := "verified"
      lastVerified := 5
      suspensionReason := none } (by decide) (by decide) (by decide)
  exact ⟨hmain.1, hmain.2 "deployer" "patient-1" 100 ["lab-results"] none
    _ rfl⟩

/-- C8: with an administrator caller and a fresh provider,
`register-provider` fails with `ERR-INVALID-EXPIRY-DATE` (`err u307`)
exactly when `expires-at` is not both strictly greater than the current
height and greater than the current height plus the 144-block minimum
validity window; on success the single committed post-state holds the
`ProviderCredential` with status `"verified"`, the `ProviderStatus` with
status `"active"` and `access-count` 0, and — when the provider had no
verification-history entries — exactly one history entry; a failure
commits nothing, so the three maps change together or not at all. -/
theorem register_provider_correct (txSender provider licenseNumber : String)
    (credentialTypes : List String) (expiresAt : Nat)
    (issuingAuthority credentialHash : String) (height : Nat)
    (vs : VerificationState)
    (hown : txSender = vs.owner)
    (hnew : alookup provider vs.providerCredentials = none) :
    (registerProvider txSender provider licenseNumber credentialTypes
        expiresAt issuingAuthority credentialHash height vs =
        .error ERR_INVALID_EXPIRY_DATE ↔
      ¬ (expiresAt > height ∧
         expiresAt > height + MIN_CREDENTIAL_VALIDITY_BLOCKS)) ∧
    (∀ vs', registerProvider txSender provider licenseNumber credentialTypes
        expiresAt issuingAuthority credentialHash height vs = .ok vs' →
      alookup provider vs'.providerCredentials = some
        { licenseNumber := licenseNumber
          credentialTypes := credentialTypes
          issuedAt := height
          expiresAt := expiresAt
          issuingAuthority := issuingAuthority
          verificationStatus := "verified"
          lastVerified := height
          suspensionReason := none } ∧
      alookup provider vs'.providerStatus = some
        { registrationDate := height
          lastActivity := height
          accessCount := 0
          status := "active"
          updatedBy := txSender } ∧
      alookup (provider, "verification-id") vs'.credentialVerifications =
        some
          { verifiedBy := txSender
            verificationDate := height
            credentialHash := credentialHash
            verificationResult := "verified"
            notes := none } ∧
      ((vs.credentialVerifications.filter
          (fun e => e.1.1 == provider)).length = 0 →
        (vs'.credentialVerifications.filter
          (fun e => e.1.1 == provider)).length = 1)) := by
  have hown' : ¬ txSender ≠ vs.owner := by simp [hown]
  have hnew' : ¬ (alookup provider vs.providerCredentials).isSome = true := by
    simp [hnew]
  constructor
  · constructor
    · intro h
      by_cases h1 : expiresAt > height
      swap
      · tauto
      by_cases h2 : expiresAt > height + MIN_CREDENTIAL_VALIDITY_BLOCKS
      swap
      · tauto
      exfalso
      by_cases hty : validateCredentialTypes vs credentialTypes = true
      · by_cases hh : credentialHash.length > 0
        · simp [registerProvider, hown', hnew', h1, h2, hty, hh] at h
        · simp [registerProvider, hown', hnew', h1, h2, hty, hh,
            ERR_INVALID_CREDENTIALS, ERR_INVALID_EXPIRY_DATE] at h
      · simp [registerProvider, hown', hnew', h1, h2, hty,
          ERR_INVALID_CREDENTIAL_TYPE, ERR_INVALID_EXPIRY_DATE] at h
    · intro hbad
      by_cases h1 : expiresAt > height
      · have h2 : ¬ expiresAt > height + MIN_CREDENTIAL_VALIDITY_BLOCKS := by
          tauto
        simp [registerProvider, hown', hnew', h1, h2]
      · simp [registerProvider, hown', hnew', h1]
  · intro vs' hok
    unfold registerProvider at hok
    repeat' split at hok
    all_goals try (exfalso; exact Except.noConfusion hok)
    injection hok with hok
    subst hok
    refine ⟨alookup_aset_same _ _ _, alookup_aset_same _ _ _,
      alookup_aset_same _ _ _, ?_⟩
    intro hcount0
    have hnone : alookup (provider, generateVerificationId provider)
        vs.credentialVerifications = none := by
      cases hc : alookup (provider, generateVerificationId provider)
          vs.credentialVerifications with
      | none => rfl
      | some cv =>
        exfalso
        have hmem := alookup_mem _ _ _ hc
        have hmemf : ((provider, generateVerificationId provider), cv) ∈
            vs.credentialVerifications.filter (fun e => e.1.1 == provider) := by
          simp [List.mem_filter, hmem]
        have hempty : vs.credentialVerifications.filter
            (fun e => e.1.1 == provider) = [] :=
          List.length_eq_zero.mp hcount0
        rw [hempty] at hmemf
        simp at hmemf
    show ((aset (provider, generateVerificationId provider) _
      vs.credentialVerifications).filter (fun e => e.1.1 == provider)).length = 1
    rw [aset_append_of_not_mem _ _ _ hnone, List.filter_append,
      List.length_eq_zero.mp hcount0]
    simp

/-- Witness for C8 on the empty registry `vs0` at height 5: expiry 100
(inside the 144-block window) is rejected with `err u307`, expiry 10000
is accepted and creates all three records. -/
theorem register_provider_correct_witness :
    (registerProvider "deployer" "provider-A" "LIC-1" ["medical-license"]
      100 "Board" "abc123" 5 vs0 = .error ERR_INVALID_EXPIRY_DATE) ∧
    alookup "provider-A"
      (runTx (registerProvider "deployer" "provider-A" "LIC-1"
        ["medical-license"] 10000 "Board" "abc123" 5) vs0).providerStatus =
      some
        { registrationDate := 5
          lastActivity := 5
          accessCount := 0
          status := "active"
          updatedBy := "deployer" } ∧
    ((runTx (registerProvider "deployer" "provider-A" "LIC-1"
        ["medical-license"] 10000 "Board" "abc123" 5) vs0).credentialVerifications.filter
      (fun e => e.1.1 == "provider-A")).length = 1 := by
  refine ⟨?_, ?_, ?_⟩
  · exact (register_provider_correct "deployer" "provider-A" "LIC-1"
      ["medical-license"] 100 "Board" "abc123" 5 vs0 rfl rfl).1.mpr (by decide)
  · exact ((register_provider_correct "deployer" "provider-A" "LIC-1"
      ["medical-license"] 10000 "Board" "abc123" 5 vs0 rfl rfl).2 _
      (by decide)).2.1
  · exact ((register_provider_correct "deployer" "provider-A" "LIC-1"
      ["medical-license"] 10000 "Board" "abc123" 5 vs0 rfl rfl).2 _
      (by decide)).2.2.2 (by decide)

/-- C3: once `revoke-access` succeeds on a (provider, patient) pair,
`has-access` on that pair returns an error — never `(ok true)` — at
every current height and whatever the remaining usage budget, across any
further sequence of operations that contains no `grant-access` on the
pair (the only call that overwrites the revoked grant). -/
theorem revoke_access_permanent (provider patientBns : String)
    (s s' : ChainState)
    (hrev : revokeAccess provider patientBns s = .ok s')
    (trace : List (Op × Nat))
    (hnog : ∀ oh ∈ trace, isGrantOn provider patientBns oh.1 = false)
    (height : Nat) :
    isErrResult (hasAccess provider patientBns height
      (runTrace trace s')) = true := by
  unfold revokeAccess at hrev
  repeat' split at hrev
  all_goals try (exfalso; exact Except.noConfusion hrev)
  rename_i xg g hg
  injection hrev with hrev
  subst hrev
  obtain ⟨g', hlook', hrev'⟩ := revoked_status_preserved_trace provider
    patientBns trace
    { s with accessGrants := aset (patientBns, provider)
                               { g with status := "revoked" }
                               s.accessGrants }
    { g with status := "revoked" }
    (alookup_aset_same _ _ _) rfl hnog
  exact hasAccess_revoked_err provider patientBns height _ g' hlook' hrev'

/-- Witness for C3: after granting then revoking on `cs0`, a trace of a
failed `use-access` and a second `revoke-access` still leaves
`has-access` failing at height 12. -/
theorem revoke_access_permanent_witness :
    isErrResult (hasAccess "provider-A" "patient-1" 12
      (runTrace [(Op.useOp "provider-A" "patient-1", 11),
                 (Op.revokeOp "provider-A" "patient-1", 12)]
        (runTx (revokeAccess "provider-A" "patient-1") csGranted))) = true :=
  revoke_access_permanent "provider-A" "patient-1" csGranted
    (runTx (revokeAccess "provider-A" "patient-1") csGranted) (by decide)
    [(Op.useOp "provider-A" "patient-1", 11),
     (Op.revokeOp "provider-A" "patient-1", 12)] (by decide) 12

/-- C4: a grant created with `max-accesses = some n` (`n > 0`) and a
zero access-count supports exactly `n` successful `use-access` calls;
after them `has-access` fails with `ERR-INVALID-GRANT` (`err u101`, the
usage-exhaustion failure) even though the current height is still below
`expiry-block`, while `get-access-grant` still reports the stored status
field as `"active"` with `access-count = n` — exhaustion is checked at
read time, never written into `status`. -/
theorem use_access_exhaustion (provider patientBns : String)
    (height n : Nat) (s : ChainState) (g : AccessGrant)
    (stat : ProviderStatus)
    (hlook : alookup (patientBns, provider) s.accessGrants = some g)
    (hact : g.status = "active")
    (hexp : g.expiryBlock > height)
    (hmax : g.maxAccesses = some n)
    (_hpos : 0 < n)
    (hcount0 : g.accessCount = 0)
    (hstat : alookup provider s.verif.providerStatus = some stat) :
    (∀ k, k < n → (useAccess provider patientBns height
      (iterUse provider patientBns height k s)).isOk = true) ∧
    (∃ g', getAccessGrant provider patientBns
        (iterUse provider patientBns height n s) = .ok (some g') ∧
      g'.accessCount = n ∧ g'.status = "active") ∧
    hasAccess provider patientBns height
      (iterUse provider patientBns height n s) = .error ERR_INVALID_GRANT := by
  refine ⟨?_, ?_, ?_⟩
  · intro k hk
    obtain ⟨g', stat', hh1, hh2, hh3, hh4, hh5, hh6⟩ :=
      iterUse_invariant provider patientBns height n k s g stat
        hlook hact hexp hmax hstat (by omega)
    have hunder : underMaxAccesses g' = true := by
      simp [underMaxAccesses, hh4]
      omega
    have hstep := useAccess_ok_step provider patientBns height
      (iterUse provider patientBns height k s) g' stat' hh1 hh2
      (by omega) hunder hh6
    simp [hstep, Except.isOk, Except.toBool]
  · obtain ⟨g', stat', hh1, hh2, hh3, hh4, hh5, hh6⟩ :=
      iterUse_invariant provider patientBns height n n s g stat
        hlook hact hexp hmax hstat (by omega)
    exact ⟨g', by simp [getAccessGrant, hh1], by omega, hh2⟩
  · obtain ⟨g', stat', hh1, hh2, hh3, hh4, hh5, hh6⟩ :=
      iterUse_invariant provider patientBns height n n s g stat
        hlook hact hexp hmax hstat (by omega)
    have hunder : underMaxAccesses g' = false := by
      simp [underMaxAccesses, hh4]
      omega
    have hnotgt : ¬ height > g'.expiryBlock := by omega
    simp [hasAccess, hh1, hunder, hnotgt]

/-- Witness for C4 at `csGranted2` with `n = 2` and height 12. -/
theorem use_access_exhaustion_witness :
    (useAccess "provider-A" "patient-1" 12 csGranted2).isOk = true ∧
    hasAccess "provider-A" "patient-1" 12
      (iterUse "provider-A" "patient-1" 12 2 csGranted2) =
      .error ERR_INVALID_GRANT := by
  have hmain := use_access_exhaustion "provider-A" "patient-1" 12 2
    csGranted2
    { expiryBlock := 100
      recordScope := ["lab-results"]
      grantedAt := 10
      grantedBy := "deployer"
      status := "active"
      maxAccesses := some 2
      accessCount := 0
      lastAccessed := none }
    { registrationDate := 5
      lastActivity := 10
      accessCount := 1
      status := "active"
      updatedBy := "deployer" }
    (by decide) (by decide) (by decide) (by decide) (by decide) (by decide)
    (by decide)
  exact ⟨hmain.1 0 (by decide), hmain.2.2⟩

end HealthRecords
